import Mathlib

/-!
Verification of the MiniWallet daemon (src/src/MiniWallet/MiniWallet.cpp).

The development shallowly embeds the wallet-session operations and the four
sentinel-file polling loops over an idealised filesystem (a partial map from
file names to file contents).  External collaborators (the wallet engine,
the node proxy, the legacy key importer, `WalletHelper::storeWallet`) are
modelled as oracles carried in environment structures; where the embedding
relies on behaviour of such an external component, the doc comment of the
definition says so.
-/

namespace MiniWallet

/-- An idealised filesystem: a partial map from file names to file contents.
Directory structure, permissions and partial writes are out of scope; each
`boost::filesystem` primitive used by the source is given ideal semantics. -/
def FS : Type := String → Option String

/-- Write (create or truncate-and-replace) the file `n` with content `v`. -/
def fsSet (fs : FS) (n v : String) : FS :=
  fun m => if m = n then some v else fs m

/-- Delete the file `n` (`boost::filesystem::remove`; a no-op when absent). -/
def fsRemove (fs : FS) (n : String) : FS :=
  fun m => if m = n then none else fs m

/-- `boost::filesystem::rename src dst`: fails (`none`, which the source sees
as a thrown exception or a set error code) when `src` does not exist,
otherwise moves the content of `src` to `dst`, overwriting `dst`. -/
def fsRename (fs : FS) (src dst : String) : Option FS :=
  match fs src with
  | none => none
  | some c => some (fsSet (fsRemove fs src) dst c)

@[simp] theorem fsSet_self (fs : FS) (n v : String) : fsSet fs n v n = some v := by
  simp [fsSet]

@[simp] theorem fsSet_other (fs : FS) (n v m : String) (h : m ≠ n) :
    fsSet fs n v m = fs m := by
  simp [fsSet, h]

@[simp] theorem fsRemove_self (fs : FS) (n : String) : fsRemove fs n n = none := by
  simp [fsRemove]

@[simp] theorem fsRemove_other (fs : FS) (n m : String) (h : m ≠ n) :
    fsRemove fs n m = fs m := by
  simp [fsRemove, h]

/-- The operations of the program that can touch the session's
`m_walletSynchronized` flag (every other member function only reads it). -/
inductive WOp where
  | reset
  | syncCompleted
  | syncProgress
  | getBalance
  | getTxs
  | transfer
  | save
deriving DecidableEq

/-- Effect of one operation on `m_walletSynchronized`:
`mini_wallet::reset` assigns `false` on entry (line 600),
`mini_wallet::synchronizationCompleted` assigns `true` (line 663);
no other operation writes the flag. -/
def syncStep (s : Bool) : WOp → Bool
  | WOp.reset => false
  | WOp.syncCompleted => true
  | _ => s

/-! ## The `tx_helper` request parser (MiniWallet.cpp lines 935-1009) -/

/-- The whitespace set of `std::isspace`, which `operator>>` skips. -/
def isSpaceChar (c : Char) : Bool :=
  c = ' ' || c = '\t' || c = '\n' || c = '\x0b' || c = '\x0c' || c = '\r'

/-- Split a character stream into maximal non-whitespace runs; `cur` is the
(reversed) run being read. -/
def tokensAux : List Char → List Char → List (List Char)
  | [], cur => if cur = [] then [] else [cur.reverse]
  | c :: rest, cur =>
    if isSpaceChar c then
      if cur = [] then tokensAux rest []
      else cur.reverse :: tokensAux rest []
    else tokensAux rest (c :: cur)

/-- The token-reading loop `while (!eof) file >> content`: `operator>>` on a
string skips whitespace and reads a maximal non-whitespace run, so after the
loop `content` holds the last whitespace-separated token of the file (or the
empty string when the file holds only whitespace). -/
def lastToken (s : String) : List Char :=
  (tokensAux s.toList []).getLastD []

/-- The `while ((pos = content.find(delimiter)) != npos)` loop of `tx_helper`
viewed as a splitter: it yields, in order, the token before each `|`
occurrence, and drops whatever follows the last `|` (the loop exits with that
residue still in `content`, never processed). -/
def txTokens : List Char → List (List Char)
  | [] => []
  | c :: rest =>
    if c = '|' then [] :: txTokens rest
    else
      match txTokens rest with
      | [] => []
      | t :: ts => (c :: t) :: ts

/-- The `switch (idx)` body of `tx_helper`: token 0-2 are pushed verbatim
(mixin, address, amount), token 3 becomes `-p <paymentId>` when non-empty,
token 4 becomes `-f <fee>` when non-empty, later tokens are ignored. -/
def handleTok (idx : Nat) (tok : List Char) : List (List Char) :=
  match idx with
  | 0 => [tok]
  | 1 => [tok]
  | 2 => [tok]
  | 3 => if tok = [] then [] else [['-', 'p'], tok]
  | 4 => if tok = [] then [] else [['-', 'f'], tok]
  | _ => []

/-- Fold of `handleTok` over the extracted tokens with a running index. -/
def txArgsAux : Nat → List (List Char) → List (List Char)
  | _, [] => []
  | idx, t :: ts => handleTok idx t ++ txArgsAux (idx + 1) ts

/-- The argument list `tx_helper` builds from one request-file content and
hands to `mini_wallet::transferWrapper`. -/
def txArgs (content : List Char) : List (List Char) :=
  txArgsAux 0 (txTokens content)

/-! ## `TransferCommand::parseArguments` (lines 136-213) -/

/-- The currency interface consumed by `TransferCommand` (external
collaborator, §6 of the spec): amount parsing (`parseAmount` on success
yields the `uint64_t` value), account-address validation, and the network
minimum fee. -/
structure Currency where
  parseAmount : List Char → Option Nat
  parseAddress : List Char → Bool
  minimumFee : Nat

/-- The string helpers consumed by `TransferCommand` (external collaborators):
`Common::fromString<size_t>` and `createTxExtraWithPaymentId` validity. -/
structure Helpers where
  fromString : List Char → Option Nat
  validPaymentIdExtra : List Char → Bool

/-- The data `TransferCommand` accumulates: mixin count, destinations with
their parsed amounts, the payment-id extra (when provided), and the fee
(initialised to the network minimum). -/
structure TransferCmd where
  fake_outs_count : Nat
  dsts : List (List Char × Nat)
  extra : Option (List Char)
  fee : Nat
deriving DecidableEq

/-- The `while (!ar.eof())` loop of `TransferCommand::parseArguments`:
a token starting with `-` consumes the following token as its value
(`-p` payment id, `-f` fee with minimum-fee check, other options ignored);
any other token is an address whose following token is its amount
(which must parse and be non-zero); running out of tokens where one is
expected raises `unexpected end of arguments`, i.e. yields `none`. -/
def parseLoop (C : Currency) (H : Helpers) :
    List (List Char) → TransferCmd → Option TransferCmd
  | [], cmd => some cmd
  | arg :: rest, cmd =>
    if arg.head? = some '-' then
      match rest with
      | [] => none
      | value :: rest2 =>
        if arg = ['-', 'p'] then
          if H.validPaymentIdExtra value then
            parseLoop C H rest2 { cmd with extra := some value }
          else none
        else if arg = ['-', 'f'] then
          match C.parseAmount value with
          | none => none
          | some f =>
            if f < C.minimumFee then none
            else parseLoop C H rest2 { cmd with fee := f }
        else parseLoop C H rest2 cmd
    else
      if C.parseAddress arg then
        match rest with
        | [] => none
        | value :: rest2 =>
          match C.parseAmount value with
          | none => none
          | some 0 => none
          | some (Nat.succ a) =>
            parseLoop C H rest2 { cmd with dsts := cmd.dsts ++ [(arg, Nat.succ a)] }
      else none

/-- `TransferCommand::parseArguments`: first token is the mixin count
(`Common::fromString`), then the option/destination loop, then the
`dsts.empty()` check; every failure path returns `false`, i.e. `none`. -/
def parseArguments (C : Currency) (H : Helpers) (args : List (List Char)) :
    Option TransferCmd :=
  match args with
  | [] => none
  | mixinStr :: rest =>
    match H.fromString mixinStr with
    | none => none
    | some m =>
      match parseLoop C H rest
          { fake_outs_count := m, dsts := [], extra := none, fee := C.minimumFee } with
      | none => none
      | some cmd => if cmd.dsts = [] then none else some cmd

/-! ## `mini_wallet::transferGui` (lines 690-735) -/

/-- Outcome of `IWalletLegacy::sendTransaction` (external collaborator):
it may throw, return the `WALLET_LEGACY_INVALID_TRANSACTION_ID` sentinel,
or return a valid transaction id. -/
inductive SendRes where
  | threw (msg : String)
  | invalid
  | ok (tx : Nat)

/-- The wallet-engine oracles consumed by `transferGui`: the send outcome,
the send-completion error (`sent.wait(tx)`), the transaction hash
(`podToHex(txInfo.hash)`), and the behaviour of
`WalletHelper::storeWallet`.  Modelled from the spec: `storeWallet` is not
in src/; per §4.2 a failed persist "surfaces the error and leaves the prior
on-disk wallet file untouched", so a throwing store (`storeResult = some
msg`) leaves the filesystem unchanged and a successful store replaces the
wallet file's content with the serialised wallet `storedContent`. -/
structure Engine where
  send : TransferCmd → SendRes
  sendWaitErr : Nat → Option String
  txHash : Nat → String
  storeResult : Option String
  storedContent : String

/-- Observable engine effects of one `transferGui` call. -/
inductive Event where
  | sendAttempt
  | stored
deriving DecidableEq

/-- `mini_wallet::transferGui`: parse the arguments ("Parse error" on
failure), call `sendTransaction` (sentinel → "Can't send money", throw →
`e.what()`), wait for send completion (error → its message), then
`storeWallet` to `m_wallet_file` (throw → `e.what()`); only after a
successful store is the transaction hash returned.  Returns the result
string, the filesystem after the call, and the engine effects. -/
def transferGui (C : Currency) (H : Helpers) (E : Engine) (walletFile : String)
    (fs : FS) (args : List (List Char)) : String × FS × List Event :=
  match parseArguments C H args with
  | none => ("Parse error", fs, [])
  | some cmd =>
    match E.send cmd with
    | SendRes.threw msg => (msg, fs, [Event.sendAttempt])
    | SendRes.invalid => ("Can\x27t send money", fs, [Event.sendAttempt])
    | SendRes.ok tx =>
      match E.sendWaitErr tx with
      | some msg => (msg, fs, [Event.sendAttempt])
      | none =>
        match E.storeResult with
        | some msg => (msg, fs, [Event.sendAttempt])
        | none =>
          (E.txHash tx, fsSet fs walletFile E.storedContent,
            [Event.sendAttempt, Event.stored])

/-! ## `mini_wallet::saveWrapper` (lines 844-882) -/

/-- Oracles for one `saveWrapper` call: whether `openOutputFileStream`
succeeds (on success the canonical name is created empty/truncated), whether
the engine save confirms success, and the serialised wallet content the
engine writes into the stream.  Modelled from the spec: the engine's
`save` is external; per the confirmed-success discipline of §4.3 it reports
success only when the output stream was actually opened and fully written,
so `openOk = true` and `saveOk = true` together mean the canonical file
holds the full new content. -/
structure SaveEnv where
  openOk : Bool
  saveOk : Bool
  content : String

/-- `mini_wallet::saveWrapper m_walletFilename`: refuse before first sync;
otherwise rename the existing canonical file `m_walletFilename + ".wallet"`
to the fresh `unique_path` temporary, open (create/truncate) the canonical
name, run the engine save; on confirmed success remove the temporary, on
failure remove the canonical file and rename the temporary back (a rename
with no temporary throws and is swallowed by the outer `catch (...)`). -/
def saveWrapper (synced : Bool) (env : SaveEnv) (walletBase temp : String)
    (fs : FS) : Bool × FS :=
  if synced = false then (false, fs)
  else
    let walletFilename := walletBase ++ ".wallet"
    let fs1 :=
      match fsRename fs walletFilename temp with
      | some fsR => fsR
      | none => fs
    let fs2 := if env.openOk then fsSet fs1 walletFilename "" else fs1
    if env.openOk && env.saveOk then
      (true, fsRemove (fsSet fs2 walletFilename env.content) temp)
    else
      let fs3 := fsRemove fs2 walletFilename
      match fsRename fs3 temp walletFilename with
      | some fs4 => (false, fs4)
      | none => (false, fs3)

/-! ## One iteration of each polling loop (lines 888-1023) -/

/-- One iteration of `reset_helper`: if `<base>.reset` exists, rename it to
`<base>.reset_` and run `resetWrapper` (returned flag); otherwise sleep. -/
def reset_helper_step (base : String) (fs : FS) : FS × Bool :=
  match fsRename fs (base ++ ".reset") (base ++ ".reset" ++ "_") with
  | some fs1 => (fs1, true)
  | none => (fs, false)

/-- One iteration of `save_helper`: if `<base>.save` exists, rename it to
`<base>.save_` and call `wallet.saveWrapper(m_wallet_file_gui)`; otherwise
sleep.  Returns the filesystem and `saveWrapper`'s result. -/
def save_helper_step (synced : Bool) (env : SaveEnv) (base temp : String)
    (fs : FS) : FS × Bool :=
  match fsRename fs (base ++ ".save") (base ++ ".save" ++ "_") with
  | some fs1 =>
    ((saveWrapper synced env base temp fs1).2, (saveWrapper synced env base temp fs1).1)
  | none => (fs, false)

/-- One iteration of `tx_helper`: if `<base>.txcast` exists, read its last
whitespace token, delete the request file (`boost::filesystem::remove`,
retried up to 3 times — ideal removal succeeds at once), submit the parsed
argument list through `transferWrapper` = `transferGui`, and write the
result string to `<base>.txresult`. -/
def tx_helper_step (C : Currency) (H : Helpers) (E : Engine)
    (walletFile base : String) (fs : FS) : FS × List Event :=
  match fs (base ++ ".txcast") with
  | none => (fs, [])
  | some content =>
    let args := txArgs (lastToken content)
    let fs1 := fsRemove fs (base ++ ".txcast")
    let r := transferGui C H E walletFile fs1 args
    (fsSet r.2.1 (base ++ ".txresult") r.1, r.2.2)

/-! ## `tryToOpenWalletOrLoadKeysOrThrow` (lines 246-334) -/

/-- Legacy-import side effects observable during `tryToOpenWalletOrLoadKeysOrThrow`. -/
inductive RecEffect where
  | renamedBareToWallet
  | importedLegacyKeys
  | renamedKeysBack
  | renamedWalletBack
  | storedWallet
deriving DecidableEq

/-- Oracles for `tryToOpenWalletOrLoadKeysOrThrow`: `load c` is the success
of `initAndLoadWallet` on wallet-file content `c`; `importOk` /
`loadImported` are the outcomes of `importLegacyKeys` and of the
re-initialisation from the imported stream; `storeOk` / `storedContent`
describe `WalletHelper::storeWallet` (modelled from the spec as for
`Engine`: not in src/, atomic per §4.2). -/
structure OpenEnv where
  load : String → Bool
  importOk : Bool
  loadImported : Bool
  storeOk : Bool
  storedContent : String

/-- The `if (walletExists)` branch of `tryToOpenWalletOrLoadKeysOrThrow`:
open and load the wallet file; on load failure fall back to the legacy
key-import path (backing up both files with `.back` renames, re-initialising from
the imported stream and re-storing) when a key file exists, else fail with
the check-password message. -/
def loadBranch (env : OpenEnv) (keysFile walletFileName : String) (fs : FS)
    (effs : List RecEffect) (keysExists : Bool) :
    Except String (String × FS × List RecEffect) :=
  match fs walletFileName with
  | none => Except.error ("error opening wallet file \x27" ++ walletFileName ++ "\x27")
  | some content =>
    if env.load content then Except.ok (walletFileName, fs, effs)
    else
      if keysExists then
        if env.importOk = false then Except.error "failed to import legacy keys"
        else
          match fsRename fs keysFile (keysFile ++ ".back") with
          | none => Except.error "failed to rename keys file"
          | some fsA =>
            match fsRename fsA walletFileName (walletFileName ++ ".back") with
            | none => Except.error "failed to rename wallet file"
            | some fsB =>
              if env.loadImported = false then
                Except.error "failed to load wallet: import stream init error"
              else if env.storeOk then
                Except.ok (walletFileName, fsSet fsB walletFileName env.storedContent,
                  effs ++ [RecEffect.importedLegacyKeys, RecEffect.renamedKeysBack,
                    RecEffect.renamedWalletBack, RecEffect.storedWallet])
              else
                Except.error ("error saving wallet file \x27" ++ walletFileName ++ "\x27")
      else
        Except.error ("can\x27t load wallet file \x27" ++ walletFileName ++ "\x27, check password")

/-- The `else if (keysExists)` branch (lines 303-330): import the legacy
keys, back up only the key file, initialise from the imported stream, and
store the wallet in current format. -/
def keysOnlyBranch (env : OpenEnv) (keysFile walletFileName : String) (fs : FS) :
    Except String (String × FS × List RecEffect) :=
  if env.importOk = false then Except.error "failed to import legacy keys"
  else
    match fsRename fs keysFile (keysFile ++ ".back") with
    | none => Except.error "failed to rename keys file"
    | some fsA =>
      if env.loadImported = false then
        Except.error "failed to load wallet: import stream init error"
      else if env.storeOk then
        Except.ok (walletFileName, fsSet fsA walletFileName env.storedContent,
          [RecEffect.importedLegacyKeys, RecEffect.renamedKeysBack, RecEffect.storedWallet])
      else
        Except.error ("error saving wallet file \x27" ++ walletFileName ++ "\x27")

/-- `tryToOpenWalletOrLoadKeysOrThrow logger wallet walletFile password`:
`walletFileArg` is the bare requested path, `keysFile` / `walletFileName`
are the names produced by `WalletHelper::prepareFileNames` (external; kept
abstract).  A thrown `std::runtime_error` is an `Except.error` carrying the
message.  On success the chosen wallet file name, the resulting filesystem
and the legacy-import effects are returned. -/
def tryToOpenWalletOrLoadKeysOrThrow (env : OpenEnv)
    (walletFileArg keysFile walletFileName : String) (fs : FS) :
    Except String (String × FS × List RecEffect) :=
  let keysExists := (fs keysFile).isSome
  let walletExists := (fs walletFileName).isSome
  if !walletExists && !keysExists && (fs walletFileArg).isSome then
    match fsRename fs walletFileArg walletFileName with
    | none => Except.error ("failed to rename file \x27" ++ walletFileArg ++ "\x27")
    | some fs1 => loadBranch env keysFile walletFileName fs1 [RecEffect.renamedBareToWallet] keysExists
  else if walletExists then
    loadBranch env keysFile walletFileName fs [] keysExists
  else if keysExists then
    keysOnlyBranch env keysFile walletFileName fs
  else
    Except.error ("wallet file \x27" ++ walletFileName ++ "\x27 is not found")

/-! ## The generate-new-wallet path of `mini_wallet::init` (lines 450-513)
and `mini_wallet::new_wallet` (lines 545-582) -/

/-- Oracles for wallet generation: `initAndGenerate` outcome, the
`WalletHelper::storeWallet` outcome with the serialised content (modelled
from the spec as for `Engine`), the wallet address, and whether
`writeAddressFile` succeeds. -/
structure GenEnv where
  generateOk : Bool
  storeOk : Bool
  walletContent : String
  address : String
  addressWriteOk : Bool

/-- `mini_wallet::new_wallet`: generate the keys (`initAndGenerate`), then
`storeWallet` to the wallet file; any failure (including a throwing store)
is caught and reported as `false`. -/
def new_wallet (g : GenEnv) (walletFileName : String) (fs : FS) : Bool × FS :=
  if g.generateOk = false then (false, fs)
  else if g.storeOk = false then (false, fs)
  else (true, fsSet fs walletFileName g.walletContent)

/-- The `--generate-new-wallet` path of `mini_wallet::init`: abort if the
prepared wallet file name already exists (line 455), abort if the paired
address-export file already exists (line 501), otherwise create the wallet
via `new_wallet` and then write the address file (a failed address write is
only a warning). -/
def init_generate (g : GenEnv) (walletFileName walletAddressFile : String)
    (fs : FS) : Bool × FS :=
  if (fs walletFileName).isSome then (false, fs)
  else if (fs walletAddressFile).isSome then (false, fs)
  else
    match new_wallet g walletFileName fs with
    | (false, fs1) => (false, fs1)
    | (true, fs1) =>
      if g.addressWriteOk then (true, fsSet fs1 walletAddressFile g.address)
      else (true, fs1)

/-! ## Shared helper lemmas -/

/-- No file name equals itself with the claimed-suffix `_` appended. -/
theorem ne_append_underscore (s : String) : s ≠ s ++ "_" := by
  intro h
  have h2 := congrArg String.length h
  simp [String.length_append] at h2
  exact (by decide : ¬ ("_".length = 0)) h2

/-- A token free of the delimiter and followed by `|` is extracted whole by
the find/erase loop, which then continues past the delimiter. -/
theorem txTokens_append (x r : List Char) (hx : '|' ∉ x) :
    txTokens (x ++ '|' :: r) = x :: txTokens r := by
  induction x with
  | nil => simp [txTokens]
  | cons c x ih =>
    have hc : c ≠ '|' := by
      intro h
      exact hx (h ▸ List.mem_cons_self c x)
    have hx' : '|' ∉ x := fun h => hx (List.mem_cons_of_mem _ h)
    simp [txTokens, hc, ih hx']

/-! ## Claim C3 -/

/-- Claim C3 counterexample: the `Synchronized` flag is not monotonic — the
`reset` operation (reachable from the `.reset` polling loop through
`resetWrapper`) assigns it back to `false` even when it is `true`. -/
theorem c3_counterexample : syncStep true WOp.reset = false := rfl

/-- Claim C3 (amended): the synchronized flag is monotonic with respect to
every operation except `reset`: once true, any sequence of operations that
contains no `reset` leaves it true. -/
theorem c3_sync_monotone_without_reset (ops : List WOp) (h : WOp.reset ∉ ops) :
    List.foldl syncStep true ops = true := by
  induction ops with
  | nil => rfl
  | cons op ops ih =>
    have hop : op ≠ WOp.reset := by
      intro he
      exact h (he ▸ List.mem_cons_self op ops)
    have hstep : syncStep true op = true := by
      cases op <;> simp_all [syncStep]
    rw [List.foldl_cons, hstep]
    exact ih fun hm => h (List.mem_cons_of_mem _ hm)

/-- Witness for the amended C3 theorem at a concrete reset-free trace. -/
theorem c3_sync_monotone_witness :
    WOp.reset ∉ [WOp.syncCompleted, WOp.save, WOp.getBalance, WOp.transfer] ∧
    List.foldl syncStep true [WOp.syncCompleted, WOp.save, WOp.getBalance, WOp.transfer] = true :=
  ⟨by decide, c3_sync_monotone_without_reset _ (by decide)⟩

/-! ## Claim C5 -/

/-- Claim C5 counterexample: for the documented wire format without a
trailing delimiter the parser drops the last field.  The request line
`3|a|1` (mixin 3, address `a`, amount `1`) yields the argument list
`["3", "a"]`: the amount is neither extracted nor passed on. -/
theorem c5_counterexample :
    lastToken "3|a|1\n" = String.toList "3|a|1" ∧
    txArgs (String.toList "3|a|1") = [['3'], ['a']] ∧
    ['1'] ∉ txArgs (String.toList "3|a|1") := by
  refine ⟨by decide, by decide, by decide⟩

/-- Claim C5 (amended): the parser extracts exactly the fields that are
followed by a delimiter, so for a request line terminated by a trailing
`|` every provided field of `mixin|address|amount[|paymentId][|fee]` is
extracted and passed (payment id as `-p <id>`, fee as `-f <fee>`). -/
theorem c5_delimited_fields_extracted (m a v p f : List Char)
    (hm : '|' ∉ m) (ha : '|' ∉ a) (hv : '|' ∉ v) (hp : '|' ∉ p) (hf : '|' ∉ f)
    (hpne : p ≠ []) (hfne : f ≠ []) :
    txArgs (m ++ '|' :: (a ++ '|' :: (v ++ ['|']))) = [m, a, v] ∧
    txArgs (m ++ '|' :: (a ++ '|' :: (v ++ '|' :: (p ++ ['|'])))) =
      [m, a, v, ['-', 'p'], p] ∧
    txArgs (m ++ '|' :: (a ++ '|' :: (v ++ '|' :: (p ++ '|' :: (f ++ ['|']))))) =
      [m, a, v, ['-', 'p'], p, ['-', 'f'], f] := by
  refine ⟨?_, ?_, ?_⟩ <;>
    simp [txArgs, txTokens_append, hm, ha, hv, hp, hf, txTokens, txArgsAux,
      handleTok, hpne, hfne]

/-- Witness for the amended C5 theorem at a concrete request line. -/
theorem c5_delimited_fields_witness :
    txArgs (String.toList "3|addr|1.5|") = [String.toList "3", String.toList "addr", String.toList "1.5"] := by
  have h := c5_delimited_fields_extracted (String.toList "3") (String.toList "addr")
    (String.toList "1.5") (String.toList "p") (String.toList "2")
    (by decide) (by decide) (by decide) (by decide) (by decide) (by decide) (by decide)
  exact h.1

/-! ## Claim C9 -/

/-- Claim C9: new-wallet creation fails as a hard precondition violation,
with the filesystem (in particular the colliding files) completely
unchanged, whenever the target wallet file or its paired address-export
file already exists. -/
theorem c9_create_collision_fails (g : GenEnv) (wfn waf : String) (fs : FS)
    (h : (fs wfn).isSome = true ∨ (fs waf).isSome = true) :
    init_generate g wfn waf fs = (false, fs) := by
  unfold init_generate
  rcases h with h | h
  · simp [h]
  · rcases hw : fs wfn with _ | c
    · simp [hw, h]
    · simp [hw]

/-- Concrete environment for new-wallet creation witnesses. -/
def genEnvW : GenEnv :=
  { generateOk := true, storeOk := true, walletContent := "wc"
    address := "A9x", addressWriteOk := true }

/-- Concrete filesystem in which the paired address-export file exists. -/
def fsAddrCollision : FS := fun n => if n = "w.address" then some "A9x" else none

/-- Witness for C9: a pre-existing `w.address` makes creation fail with no
file written. -/
theorem c9_create_collision_witness :
    ((fsAddrCollision "w.wallet").isSome = true ∨ (fsAddrCollision "w.address").isSome = true) ∧
    init_generate genEnvW "w.wallet" "w.address" fsAddrCollision = (false, fsAddrCollision) :=
  ⟨Or.inr (by decide),
    c9_create_collision_fails genEnvW "w.wallet" "w.address" fsAddrCollision (Or.inr (by decide))⟩

/-! ## Claim C10 -/

/-- Claim C10: before the first full synchronization `saveWrapper` returns
`false` immediately and modifies nothing, so a `.save` request processed by
the save loop performs no persist: every file other than the consumed
`.save` sentinel (in particular the wallet file and any temporary) is
untouched. -/
theorem c10_save_before_sync_is_noop (env : SaveEnv) (base temp : String) (fs : FS) :
    saveWrapper false env base temp fs = (false, fs) ∧
    (∀ n, n ≠ base ++ ".save" → n ≠ base ++ ".save" ++ "_" →
      (save_helper_step false env base temp fs).1 n = fs n) ∧
    (save_helper_step false env base temp fs).2 = false := by
  have hsw : saveWrapper false env base temp fs = (false, fs) := by
    unfold saveWrapper
    simp
  refine ⟨hsw, ?_, ?_⟩ <;> unfold save_helper_step <;>
    rcases hs : fs (base ++ ".save") with _ | c <;>
      simp [fsRename, hs, saveWrapper, fsSet, fsRemove]
  intro n h1 h2
  simp [h1, h2]

/-- Witness for C10: with the wallet unsynchronized, a pending `w.save`
request leaves `w.wallet` and the temporary untouched. -/
theorem c10_save_before_sync_witness :
    saveWrapper false ⟨true, true, "new"⟩ "w" "w.wallet.tmp.1" fsAddrCollision =
      (false, fsAddrCollision) ∧
    ("w.wallet" ≠ "w" ++ ".save" ∧ "w.wallet" ≠ "w" ++ ".save" ++ "_") ∧
    (save_helper_step false ⟨true, true, "new"⟩ "w" "w.wallet.tmp.1" fsAddrCollision).1 "w.wallet" =
      fsAddrCollision "w.wallet" :=
  ⟨(c10_save_before_sync_is_noop ⟨true, true, "new"⟩ "w" "w.wallet.tmp.1" fsAddrCollision).1,
    ⟨by decide, by decide⟩,
    (c10_save_before_sync_is_noop ⟨true, true, "new"⟩ "w" "w.wallet.tmp.1" fsAddrCollision).2.1
      "w.wallet" (by decide) (by decide)⟩

/-! ## Claim C2 -/

/-- Claim C2: `saveWrapper` follows the atomic-replace discipline.  With a
fresh temporary name (as `unique_path` guarantees): on confirmed success
the canonical wallet file holds the fully written new content and the
temporary is gone; on any failure the canonical file holds exactly its
pre-save content (the original is reinstated via the temporary) and the
temporary is gone; no other file is touched. -/
theorem c2_saveWrapper_atomic_replace (env : SaveEnv) (base temp : String) (fs : FS)
    (htc : temp ≠ base ++ ".wallet") (hfresh : fs temp = none) :
    ((saveWrapper true env base temp fs).1 = true →
      (saveWrapper true env base temp fs).2 (base ++ ".wallet") = some env.content ∧
      (saveWrapper true env base temp fs).2 temp = none) ∧
    ((saveWrapper true env base temp fs).1 = false →
      (saveWrapper true env base temp fs).2 (base ++ ".wallet") = fs (base ++ ".wallet") ∧
      (saveWrapper true env base temp fs).2 temp = none) ∧
    (∀ n, n ≠ base ++ ".wallet" → n ≠ temp →
      (saveWrapper true env base temp fs).2 n = fs n) := by
  have hwt : base ++ ".wallet" ≠ temp := fun h => htc h.symm
  unfold saveWrapper
  rcases hc : fs (base ++ ".wallet") with _ | c0 <;>
    cases ho : env.openOk <;> cases hs : env.saveOk <;>
      refine ⟨?_, ?_, fun n h1 h2 => ?_⟩ <;>
        simp [fsRename, hc, hfresh, fsSet, fsRemove, htc, hwt, *]

/-- Concrete pre-save filesystem for the C2 witness. -/
def fsPreSave : FS := fun n => if n = "w.wallet" then some "orig" else none

/-- Witness for C2 at a concrete state: a successful save replaces
`w.wallet` with the new content and removes the temporary. -/
theorem c2_saveWrapper_witness :
    ("w.tmp.1" ≠ "w" ++ ".wallet" ∧ fsPreSave "w.tmp.1" = none) ∧
    ((saveWrapper true ⟨true, true, "new"⟩ "w" "w.tmp.1" fsPreSave).1 = true →
      (saveWrapper true ⟨true, true, "new"⟩ "w" "w.tmp.1" fsPreSave).2 ("w" ++ ".wallet") =
        some "new" ∧
      (saveWrapper true ⟨true, true, "new"⟩ "w" "w.tmp.1" fsPreSave).2 "w.tmp.1" = none) :=
  ⟨⟨by decide, by decide⟩,
    (c2_saveWrapper_atomic_replace ⟨true, true, "new"⟩ "w" "w.tmp.1" fsPreSave
      (by decide) (by decide)).1⟩

/-- Frame property of `saveWrapper`: it only ever touches the canonical
wallet file and the temporary. -/
theorem saveWrapper_frame (synced : Bool) (env : SaveEnv) (base temp : String)
    (fs : FS) (n : String) (htc : temp ≠ base ++ ".wallet")
    (h1 : n ≠ base ++ ".wallet") (h2 : n ≠ temp) :
    (saveWrapper synced env base temp fs).2 n = fs n := by
  have hwt : base ++ ".wallet" ≠ temp := Ne.symm htc
  unfold saveWrapper
  cases synced
  · simp
  · rcases hc : fs (base ++ ".wallet") with _ | c0 <;>
      rcases hft : fs temp with _ | ct <;>
        cases ho : env.openOk <;> cases hs : env.saveOk <;>
          simp [fsRename, hc, hft, fsSet, fsRemove, htc, hwt, h1, h2]

/-- Frame property of `transferGui`: the only file it can touch is the
wallet file it persists to. -/
theorem transferGui_frame (C : Currency) (H : Helpers) (E : Engine)
    (wfile : String) (fs : FS) (args : List (List Char)) (n : String)
    (h : n ≠ wfile) :
    (transferGui C H E wfile fs args).2.1 n = fs n := by
  unfold transferGui
  rcases hp : parseArguments C H args with _ | cmd
  · simp
  · rcases hsend : E.send cmd with msg | _ | tx <;> simp [hsend, h]
    rcases hw : E.sendWaitErr tx with _ | m <;> simp [hw, h]
    rcases hst : E.storeResult with _ | m <;> simp [hst, h]

/-! ## Claim C4 -/

/-- Degenerate currency oracle used in concrete counterexamples. -/
def cexCurrency : Currency :=
  { parseAmount := fun _ => none, parseAddress := fun _ => false, minimumFee := 1 }

/-- Degenerate helper oracle used in concrete counterexamples. -/
def cexHelpers : Helpers :=
  { fromString := fun _ => none, validPaymentIdExtra := fun _ => false }

/-- Degenerate engine oracle used in concrete counterexamples. -/
def cexEngine : Engine :=
  { send := fun _ => SendRes.invalid, sendWaitErr := fun _ => none,
    txHash := fun _ => "h", storeResult := none, storedContent := "sc" }

/-- Concrete filesystem with a pending `.txcast` request. -/
def fsTxPending : FS := fun n => if n = "w.txcast" then some "3|a|1|" else none

/-- Claim C4 counterexample: the transaction loop does not rename its
trigger sentinel to a claimed `_` variant — after one `tx_helper` iteration
on a pending `w.txcast`, no `w.txcast_` exists (it was never created) and
the sentinel is gone because it was deleted. -/
theorem c4_counterexample :
    (fsTxPending ("w" ++ ".txcast")).isSome = true ∧
    (tx_helper_step cexCurrency cexHelpers cexEngine "w.wallet" "w" fsTxPending).1
      ("w" ++ ".txcast" ++ "_") = none ∧
    (tx_helper_step cexCurrency cexHelpers cexEngine "w.wallet" "w" fsTxPending).1
      ("w" ++ ".txcast") = none := by
  refine ⟨by decide, by decide, by decide⟩

/-- Claim C4 (amended): the reset and save polling loops claim their
trigger sentinel by atomically renaming it to the `_` variant before
performing their operation; the transaction loop instead consumes its
`.txcast` sentinel by deleting it (remove with bounded retry) before
submitting, and never creates a claimed variant.  The name-inequality
hypotheses record that the wallet file, the save temporary and the result
channel are distinct from the sentinel names, as they are for the
`<base>.<suffix>` naming scheme of the source. -/
theorem c4_sentinel_claim_discipline (base temp wfile : String) (fs : FS) (c : String)
    (synced : Bool) (env : SaveEnv) (C : Currency) (H : Helpers) (E : Engine)
    (hA : base ++ ".save" ≠ base ++ ".wallet") (hB : base ++ ".save" ≠ temp)
    (hC : base ++ ".save" ++ "_" ≠ base ++ ".wallet") (hD : base ++ ".save" ++ "_" ≠ temp)
    (hE : temp ≠ base ++ ".wallet")
    (hF : base ++ ".txcast" ≠ wfile) (hG : base ++ ".txcast" ≠ base ++ ".txresult")
    (hH : base ++ ".txcast" ++ "_" ≠ wfile)
    (hI : base ++ ".txcast" ++ "_" ≠ base ++ ".txresult") :
    (fs (base ++ ".reset") = some c →
      (reset_helper_step base fs).1 (base ++ ".reset") = none ∧
      (reset_helper_step base fs).1 (base ++ ".reset" ++ "_") = some c ∧
      (reset_helper_step base fs).2 = true) ∧
    (fs (base ++ ".save") = some c →
      (save_helper_step synced env base temp fs).1 (base ++ ".save") = none ∧
      (save_helper_step synced env base temp fs).1 (base ++ ".save" ++ "_") = some c) ∧
    (fs (base ++ ".txcast") = some c →
      (tx_helper_step C H E wfile base fs).1 (base ++ ".txcast") = none ∧
      (tx_helper_step C H E wfile base fs).1 (base ++ ".txcast" ++ "_") =
        fs (base ++ ".txcast" ++ "_")) := by
  refine ⟨fun hr => ?_, fun hs => ?_, fun ht => ?_⟩
  · unfold reset_helper_step
    simp [fsRename, hr, fsSet, fsRemove, ne_append_underscore (base ++ ".reset")]
  · unfold save_helper_step
    simp only [fsRename, hs]
    constructor
    · rw [saveWrapper_frame _ _ _ _ _ _ hE hA hB]
      simp [fsSet, fsRemove, ne_append_underscore (base ++ ".save")]
    · rw [saveWrapper_frame _ _ _ _ _ _ hE hC hD]
      simp [fsSet, fsRemove]
  · unfold tx_helper_step
    simp only [ht]
    constructor
    · rw [fsSet_other _ _ _ _ hG, transferGui_frame _ _ _ _ _ _ _ hF]
      simp [fsRemove]
    · rw [fsSet_other _ _ _ _ hI, transferGui_frame _ _ _ _ _ _ _ hH]
      exact fsRemove_other _ _ _ (ne_append_underscore (base ++ ".txcast")).symm

/-- Concrete filesystem with all three trigger sentinels pending. -/
def fsAllPending : FS :=
  fun n =>
    if n = "w.reset" then some ""
    else if n = "w.save" then some ""
    else if n = "w.txcast" then some "" else none

/-- Witness for the amended C4 theorem at concrete names and state. -/
theorem c4_sentinel_claim_witness :
    fsAllPending ("w" ++ ".reset") = some "" ∧
    (reset_helper_step "w" fsAllPending).1 ("w" ++ ".reset") = none ∧
    (reset_helper_step "w" fsAllPending).1 ("w" ++ ".reset" ++ "_") = some "" := by
  have h := c4_sentinel_claim_discipline "w" "w.tmp.1" "w.wallet" fsAllPending ""
    true ⟨true, true, "new"⟩ cexCurrency cexHelpers cexEngine
    (by decide) (by decide) (by decide) (by decide) (by decide)
    (by decide) (by decide) (by decide) (by decide)
  have h1 := h.1 (by decide)
  exact ⟨by decide, h1.1, h1.2.1⟩

/-! ## Claim C1 -/

/-- Claim C1: for every valid transfer request (one `parseArguments`
accepts: ≥1 destination, non-zero amounts, fee at least the minimum),
`transferGui` either returns the transaction hash of a non-sentinel
transaction id with the wallet file holding the persisted serialised
wallet, or returns an error string with the filesystem unchanged from
before the call. -/
theorem c1_transfer_persist_or_error_unchanged (C : Currency) (H : Helpers)
    (E : Engine) (wfile : String) (fs : FS) (args : List (List Char))
    (cmd : TransferCmd) (hvalid : parseArguments C H args = some cmd) :
    (∃ tx, E.send cmd = SendRes.ok tx ∧
      (transferGui C H E wfile fs args).1 = E.txHash tx ∧
      (transferGui C H E wfile fs args).2.1 wfile = some E.storedContent ∧
      Event.stored ∈ (transferGui C H E wfile fs args).2.2) ∨
    ((transferGui C H E wfile fs args).2.1 = fs ∧
      Event.stored ∉ (transferGui C H E wfile fs args).2.2) := by
  unfold transferGui
  rcases hsend : E.send cmd with msg | _ | tx
  · right
    simp [hvalid, hsend]
  · right
    simp [hvalid, hsend]
  · rcases hw : E.sendWaitErr tx with _ | m
    · rcases hst : E.storeResult with _ | m
      · left
        exact ⟨tx, rfl, by simp [hvalid, hsend, hw, hst]⟩
      · right
        simp [hvalid, hsend, hw, hst]
    · right
      simp [hvalid, hsend, hw]

/-- Empty filesystem used by concrete witnesses. -/
def fsEmpty : FS := fun _ => none

/-- Currency oracle accepting address `a` and amount `1`, minimum fee 1. -/
def okCurrency : Currency :=
  { parseAmount := fun v => if v = ['1'] then some 1 else none,
    parseAddress := fun a => a = ['a'], minimumFee := 1 }

/-- Helper oracle accepting mixin token `3`. -/
def okHelpers : Helpers :=
  { fromString := fun m => if m = ['3'] then some 3 else none,
    validPaymentIdExtra := fun _ => true }

/-- Engine oracle on which send, wait and store all succeed. -/
def okEngine : Engine :=
  { send := fun _ => SendRes.ok 7, sendWaitErr := fun _ => none,
    txHash := fun _ => "deadbeef", storeResult := none, storedContent := "persisted" }

/-- The parsed command for the request `3|a|1`. -/
def okCmd : TransferCmd :=
  { fake_outs_count := 3, dsts := [(['a'], 1)], extra := none, fee := 1 }

/-- Witness for C1 at the concrete valid request `3 a 1`. -/
theorem c1_transfer_witness :
    parseArguments okCurrency okHelpers [['3'], ['a'], ['1']] = some okCmd ∧
    ((∃ tx, okEngine.send okCmd = SendRes.ok tx ∧
      (transferGui okCurrency okHelpers okEngine "w.wallet" fsEmpty [['3'], ['a'], ['1']]).1 =
        okEngine.txHash tx ∧
      (transferGui okCurrency okHelpers okEngine "w.wallet" fsEmpty [['3'], ['a'], ['1']]).2.1
        "w.wallet" = some okEngine.storedContent ∧
      Event.stored ∈
        (transferGui okCurrency okHelpers okEngine "w.wallet" fsEmpty [['3'], ['a'], ['1']]).2.2) ∨
    ((transferGui okCurrency okHelpers okEngine "w.wallet" fsEmpty [['3'], ['a'], ['1']]).2.1 =
        fsEmpty ∧
      Event.stored ∉
        (transferGui okCurrency okHelpers okEngine "w.wallet" fsEmpty [['3'], ['a'], ['1']]).2.2)) :=
  ⟨by decide,
    c1_transfer_persist_or_error_unchanged okCurrency okHelpers okEngine "w.wallet" fsEmpty
      [['3'], ['a'], ['1']] okCmd (by decide)⟩

/-! ## Claim C6 -/

/-- Claim C6: in `tryToOpenWalletOrLoadKeysOrThrow`, (i) when the wallet
file exists but fails to load and no legacy key file exists, the call
throws the check-password error; (ii) when neither the wallet file nor the
key file nor any file at the bare requested path exists, the call throws
the wallet-not-found error. -/
theorem c6_open_failure_modes (env : OpenEnv) (warg kf wfn : String) :
    (∀ fs c, fs wfn = some c → env.load c = false → fs kf = none →
      tryToOpenWalletOrLoadKeysOrThrow env warg kf wfn fs =
        Except.error ("can\x27t load wallet file \x27" ++ wfn ++ "\x27, check password")) ∧
    (∀ fs, fs wfn = none → fs kf = none → fs warg = none →
      tryToOpenWalletOrLoadKeysOrThrow env warg kf wfn fs =
        Except.error ("wallet file \x27" ++ wfn ++ "\x27 is not found")) := by
  constructor
  · intro fs c hw hl hk
    unfold tryToOpenWalletOrLoadKeysOrThrow
    simp [hw, hk, loadBranch, hl]
  · intro fs hw hk hb
    unfold tryToOpenWalletOrLoadKeysOrThrow
    simp [hw, hk, hb]

/-- Open-environment oracle whose load always fails. -/
def failLoadEnv : OpenEnv :=
  { load := fun _ => false, importOk := true, loadImported := true,
    storeOk := true, storedContent := "sc" }

/-- Witness for C6: both failure modes at concrete filesystems. -/
theorem c6_open_failure_witness :
    tryToOpenWalletOrLoadKeysOrThrow failLoadEnv "w" "w.keys" "w.wallet" fsPreSave =
      Except.error ("can\x27t load wallet file \x27" ++ "w.wallet" ++ "\x27, check password") ∧
    tryToOpenWalletOrLoadKeysOrThrow failLoadEnv "w" "w.keys" "w.wallet" fsEmpty =
      Except.error ("wallet file \x27" ++ "w.wallet" ++ "\x27 is not found") :=
  ⟨(c6_open_failure_modes failLoadEnv "w" "w.keys" "w.wallet").1 fsPreSave "orig"
      (by decide) (by decide) (by decide),
    (c6_open_failure_modes failLoadEnv "w" "w.keys" "w.wallet").2 fsEmpty
      (by decide) (by decide) (by decide)⟩

/-! ## Claim C7 -/

/-- Claim C7: on an already-migrated current-format wallet (the wallet file
exists and loads), `tryToOpenWalletOrLoadKeysOrThrow` succeeds with no
filesystem change and no legacy-import side effects, and therefore a second
run on the resulting state succeeds again with no legacy-import side
effects. -/
theorem c7_recovery_idempotent (env : OpenEnv) (warg kf wfn : String) (fs : FS)
    (c : String) (hw : fs wfn = some c) (hl : env.load c = true) :
    tryToOpenWalletOrLoadKeysOrThrow env warg kf wfn fs = Except.ok (wfn, fs, []) ∧
    (∀ wfn2 fs2 effs,
      tryToOpenWalletOrLoadKeysOrThrow env warg kf wfn fs = Except.ok (wfn2, fs2, effs) →
      effs = [] ∧
      tryToOpenWalletOrLoadKeysOrThrow env warg kf wfn fs2 = Except.ok (wfn2, fs2, [])) := by
  have h1 : tryToOpenWalletOrLoadKeysOrThrow env warg kf wfn fs = Except.ok (wfn, fs, []) := by
    unfold tryToOpenWalletOrLoadKeysOrThrow
    simp [hw, loadBranch, hl]
  refine ⟨h1, fun wfn2 fs2 effs h2 => ?_⟩
  rw [h1] at h2
  obtain ⟨he1, he2, he3⟩ := by simpa using h2.symm
  subst he1
  subst he2
  exact ⟨he3, h1⟩

/-- Open-environment oracle whose load always succeeds. -/
def okLoadEnv : OpenEnv :=
  { load := fun _ => true, importOk := true, loadImported := true,
    storeOk := true, storedContent := "sc" }

/-- Witness for C7 at a concrete migrated wallet. -/
theorem c7_recovery_witness :
    tryToOpenWalletOrLoadKeysOrThrow okLoadEnv "w" "w.keys" "w.wallet" fsPreSave =
      Except.ok ("w.wallet", fsPreSave, []) :=
  (c7_recovery_idempotent okLoadEnv "w" "w.keys" "w.wallet" fsPreSave "orig"
    (by decide) (by decide)).1

/-! ## Claim C8 -/

/-- Claim C8: every malformed transfer request is rejected before any
engine submission, with the error message written to the result channel:
(i) whenever parsing fails, `transferGui` returns "Parse error" with no
filesystem change and no engine call; parsing fails for (ii) a non-numeric
mixin, (iii) an unparseable destination address, (iv) a zero amount, and
(v) a fee below the network minimum; (vi) the transaction loop writes the
"Parse error" message of such a request into `<base>.txresult` and makes
no engine call. -/
theorem c8_malformed_rejected (C : Currency) (H : Helpers) (E : Engine) (wfile : String) :
    (∀ fs args, parseArguments C H args = none →
      transferGui C H E wfile fs args = ("Parse error", fs, [])) ∧
    (∀ m rest, H.fromString m = none → parseArguments C H (m :: rest) = none) ∧
    (∀ m a v mx, H.fromString m = some mx → a.head? ≠ some '-' →
      C.parseAddress a = false → parseArguments C H [m, a, v] = none) ∧
    (∀ m a v mx, H.fromString m = some mx → a.head? ≠ some '-' →
      C.parseAddress a = true → C.parseAmount v = some 0 →
      parseArguments C H [m, a, v] = none) ∧
    (∀ m a v fstr mx k fv, H.fromString m = some mx → a.head? ≠ some '-' →
      C.parseAddress a = true → C.parseAmount v = some (k + 1) →
      C.parseAmount fstr = some fv → fv < C.minimumFee →
      parseArguments C H [m, a, v, ['-', 'f'], fstr] = none) ∧
    (∀ fs base content, fs (base ++ ".txcast") = some content →
      parseArguments C H (txArgs (lastToken content)) = none →
      (tx_helper_step C H E wfile base fs).1 (base ++ ".txresult") = some "Parse error" ∧
      (tx_helper_step C H E wfile base fs).2 = []) := by
  have hparse : ∀ fs args, parseArguments C H args = none →
      transferGui C H E wfile fs args = ("Parse error", fs, []) := by
    intro fs args hpn
    unfold transferGui
    simp [hpn]
  refine ⟨hparse, ?_, ?_, ?_, ?_, ?_⟩
  · intro m rest hm
    unfold parseArguments
    simp [hm]
  · intro m a v mx hm hd hA
    unfold parseArguments
    simp [hm, parseLoop, hd, hA]
  · intro m a v mx hm hd hA hv
    unfold parseArguments
    simp [hm, parseLoop, hd, hA, hv]
  · intro m a v fstr mx k fv hm hd hA hv hf hlt
    unfold parseArguments
    simp [hm, parseLoop, hd, hA, hv, hf, Nat.lt_iff_add_one_le.mp hlt,
      if_pos (show fv < C.minimumFee from hlt)]
  · intro fs base content htx hpn
    unfold tx_helper_step
    simp only [htx]
    rw [hparse _ _ hpn]
    exact ⟨fsSet_self _ _ _, rfl⟩

/-- Currency oracle for the C8 witness: address `a`, amounts `0` and `1`,
minimum fee 5. -/
def mCurrency : Currency :=
  { parseAmount := fun v => if v = ['1'] then some 1 else if v = ['0'] then some 0 else none,
    parseAddress := fun a => a = ['a'], minimumFee := 5 }

/-- Helper oracle for the C8 witness: only mixin token `3` is numeric. -/
def mHelpers : Helpers :=
  { fromString := fun m => if m = ['3'] then some 3 else none,
    validPaymentIdExtra := fun _ => true }

/-- Concrete filesystem with a pending malformed `.txcast` request
(non-numeric mixin `x`). -/
def fsBadTx : FS := fun n => if n = "w.txcast" then some "x|a|1|" else none

/-- Witness for C8: each malformed shape at concrete inputs. -/
theorem c8_malformed_witness :
    transferGui mCurrency mHelpers okEngine "w.wallet" fsEmpty [['x']] =
      ("Parse error", fsEmpty, []) ∧
    parseArguments mCurrency mHelpers [['x']] = none ∧
    parseArguments mCurrency mHelpers [['3'], ['b'], ['1']] = none ∧
    parseArguments mCurrency mHelpers [['3'], ['a'], ['0']] = none ∧
    parseArguments mCurrency mHelpers [['3'], ['a'], ['1'], ['-', 'f'], ['1']] = none ∧
    (tx_helper_step mCurrency mHelpers okEngine "w.wallet" "w" fsBadTx).1
      ("w" ++ ".txresult") = some "Parse error" ∧
    (tx_helper_step mCurrency mHelpers okEngine "w.wallet" "w" fsBadTx).2 = [] := by
  have h := c8_malformed_rejected mCurrency mHelpers okEngine "w.wallet"
  have h6 := h.2.2.2.2.2 fsBadTx "w" "x|a|1|" (by decide) (by decide)
  exact ⟨h.1 fsEmpty [['x']] (by decide),
    h.2.1 ['x'] [] (by decide),
    h.2.2.1 ['3'] ['b'] ['1'] 3 (by decide) (by decide) (by decide),
    h.2.2.2.1 ['3'] ['a'] ['0'] 3 (by decide) (by decide) (by decide) (by decide),
    h.2.2.2.2.1 ['3'] ['a'] ['1'] ['1'] 3 0 1 (by decide) (by decide) (by decide)
      (by decide) (by decide) (by decide),
    h6.1, h6.2⟩

end MiniWallet
